import Mathlib

/-!
# Verification of `src/core/network.cpp` (Clementine network layer)

Shallow embedding of the four components of the file:

* `NetworkAccessManager::createRequest` (request augmenter),
* `NetworkTimeouts` (timeout supervisor, `AddReply` / `ReplyFinished` / `timerEvent`),
* `RedirectFollower` (bounded redirect chain).

Qt collaborator semantics that the code relies on are modelled explicitly:

* a `QVariant` holding an optional value; an unset attribute read without a
  default gives an invalid variant whose `toInt()` is `0`;
* the `QNetworkRequest::CacheLoadControl` enum values of Qt 4/5:
  `AlwaysNetwork = 0`, `PreferNetwork = 1`, `PreferCache = 2`, `AlwaysCache = 3`;
* `QNetworkAccessManager::get` issues a `GetOperation` with no outgoing data;
* `QObject::startTimer` returns a fresh timer identifier.
-/

namespace Network

/-! ## QVariant model -/

/-- `QVariant::toInt` on an optional integer attribute: an invalid (unset)
variant converts to `0`. -/
def variantToInt : Option Nat → Nat
  | none => 0
  | some v => v

/-- Qt enum value `QNetworkRequest::AlwaysNetwork`. -/
def AlwaysNetwork : Nat := 0

/-- Qt enum value `QNetworkRequest::PreferNetwork` (the dispatch-time default). -/
def PreferNetwork : Nat := 1

/-- Qt enum value `QNetworkRequest::PreferCache`. -/
def PreferCache : Nat := 2

/-- Qt enum value `QNetworkRequest::AlwaysCache`. -/
def AlwaysCache : Nat := 3

/-! ## Request model -/

/-- `QNetworkAccessManager::Operation`. -/
inductive Operation where
  | headOp | getOp | putOp | postOp | deleteOp | customOp
deriving DecidableEq, Repr

/-- The parts of a `QNetworkRequest` that `createRequest` reads or writes,
plus opaque remainders (`otherHeaders`, `otherAttributes`) standing for every
header and attribute the function never mentions. -/
structure Request where
  url : String
  /-- raw header `User-Agent` -/
  userAgent : Option String
  /-- known header `QNetworkRequest::ContentTypeHeader` -/
  contentType : Option String
  /-- attribute `QNetworkRequest::CacheLoadControlAttribute` -/
  cacheLoadControl : Option Nat
  otherHeaders : List (String × String)
  otherAttributes : List (Nat × Nat)
deriving DecidableEq, Repr

/-- `NetworkAccessManager::createRequest` (network.cpp:87-108), the pure
rewrite of the request.  Source:

1. copy the incoming request;
2. `setRawHeader("User-Agent", "<applicationName> <applicationVersion>")`;
3. if `op == PostOperation` and the `ContentTypeHeader` of the copy is not
   valid, set it to `"application/x-www-form-urlencoded"`;
4. if `request.attribute(CacheLoadControlAttribute).toInt() == PreferNetwork`
   (note: read from the *original* request, with no default value, so an
   unset attribute reads as the invalid variant, i.e. `0`), set the copy's
   `CacheLoadControlAttribute` to `PreferCache`. -/
def createRequest (appName appVersion : String) (op : Operation)
    (request : Request) : Request :=
  let new_request := { request with
    userAgent := some (appName ++ " " ++ appVersion) }
  let new_request :=
    if op = Operation.postOp ∧ new_request.contentType = none then
      { new_request with contentType := some "application/x-www-form-urlencoded" }
    else new_request
  if variantToInt request.cacheLoadControl = PreferNetwork then
    { new_request with cacheLoadControl := some PreferCache }
  else new_request

/-- The full dispatch: the base-class `createRequest` is invoked with the same
operation and the same outgoing-data device, only the request is rewritten. -/
def createRequestDispatch (appName appVersion : String) (op : Operation)
    (request : Request) (outgoingData : Option (List Nat)) :
    Operation × Request × Option (List Nat) :=
  (op, createRequest appName appVersion op request, outgoingData)

/-! ## NetworkTimeouts model

State of a `NetworkTimeouts` object: the `timers_` map (association list from
reply identity to timer identifier), the next fresh timer id `startTimer`
would return, and the log of `abort()` calls issued so far (most recent
last). Replies and timer ids are identities, modelled as naturals. -/

structure TimeoutsState where
  timers : List (Nat × Nat)
  nextTimer : Nat
  aborts : List Nat
deriving DecidableEq, Repr

/-- The state of a freshly constructed `NetworkTimeouts` object: no tracked
replies, no aborts issued. -/
def initTimeouts : TimeoutsState := ⟨[], 0, []⟩

/-- `NetworkTimeouts::AddReply` (network.cpp:115-122): if `timers_` already
contains the reply, return; otherwise connect the reply's signals and store
a fresh timer id for it. -/
def AddReply (s : TimeoutsState) (reply : Nat) : TimeoutsState :=
  if s.timers.any (fun p => p.1 == reply) then s
  else { s with
    timers := s.timers ++ [(reply, s.nextTimer)],
    nextTimer := s.nextTimer + 1 }

/-- `NetworkTimeouts::ReplyFinished` (network.cpp:124-129): if `timers_`
contains the sender reply, `killTimer(timers_.take(reply))` — remove the
entry and cancel its timer. -/
def ReplyFinished (s : TimeoutsState) (reply : Nat) : TimeoutsState :=
  if s.timers.any (fun p => p.1 == reply) then
    { s with timers := s.timers.filter (fun p => p.1 != reply) }
  else s

/-- `NetworkTimeouts::timerEvent` (network.cpp:131-136): look up the reply
registered under the firing timer id (`timers_.key(e->timerId())`, null when
absent) and, when found, call `abort()` on it. The entry itself is *not*
removed here. -/
def timerEvent (s : TimeoutsState) (timerId : Nat) : TimeoutsState :=
  match s.timers.find? (fun p => p.2 == timerId) with
  | some p => { s with aborts := s.aborts ++ [p.1] }
  | none => s

/-- External events driving a `NetworkTimeouts` object: a registration, the
finished/destroyed notification of a reply, and the expiry of a timer id.
A `fire` of a timer id that is no longer in `timers_` (because `killTimer`
ran) is a no-op, exactly as `timers_.key` returning null. -/
inductive TEvent where
  | add (reply : Nat)
  | finish (reply : Nat)
  | fire (timerId : Nat)
deriving DecidableEq, Repr

/-- One event step of the supervisor. -/
def step (s : TimeoutsState) : TEvent → TimeoutsState
  | TEvent.add r => AddReply s r
  | TEvent.finish r => ReplyFinished s r
  | TEvent.fire t => timerEvent s t

/-- Run the supervisor over a sequence of events. -/
def run (s : TimeoutsState) : List TEvent → TimeoutsState
  | [] => s
  | e :: es => run (step s e) es

/-! ## RedirectFollower model -/

/-- HTTP verbs as issued through `QNetworkAccessManager` entry points. -/
inductive Verb where
  | get | post | head | put
deriving DecidableEq, Repr

/-- The parts of a `QNetworkRequest` the redirect follower touches: the URL
it replaces, and everything else (headers etc.) it copies verbatim. -/
structure HttpRequest where
  url : String
  headers : List (String × String)
deriving DecidableEq, Repr

/-- What `RedirectFollower::ReplyFinished` reads off the finished reply:
its resolved URL, its `RedirectionTargetAttribute` (absent on a
non-redirect response), its originating request, the verb and body it was
issued with, and the identity of the manager that produced it. -/
structure ReplyInfo where
  url : String
  redirectTarget : Option String
  request : HttpRequest
  verb : Verb
  body : Option (List Nat)
  managerId : Nat
deriving DecidableEq, Repr

/-- The follow-up hop of `RedirectFollower::ReplyFinished`
(network.cpp:163-170), taken when the reply carries a redirect target and
the budget is not exhausted. Returns the manager used, the verb used, the
outgoing body, and the request issued:

* `next_url = current_reply_->url().resolved(target)` (resolution delegated
  to the `resolve` parameter, standing for `QUrl::resolved`);
* `req` is a copy of `current_reply_->request()` with only the URL replaced;
* the new reply is `current_reply_->manager()->get(req)` — a GET with no
  outgoing data, whatever verb the current reply was issued with. -/
def redirectHop (resolve : String → String → String) (current : ReplyInfo) :
    Option (Nat × Verb × Option (List Nat) × HttpRequest) :=
  match current.redirectTarget with
  | none => none
  | some target =>
    let next_url := resolve current.url target
    some (current.managerId, Verb.get, none,
          { current.request with url := next_url })

/-- The counting skeleton of the `RedirectFollower` loop
(network.cpp:154-175). The script lists, for each successive physical
reply, whether its response carries a valid `RedirectionTargetAttribute`.
`redirects_remaining_` starts at `max_redirects`; on each finished reply:

* redirect present and `redirects_remaining_-- == 0` → emit `finished`, stop;
* redirect present otherwise → decrement and issue one follow-up request,
  which consumes the next script entry;
* no redirect → emit `finished`, stop.

Returns (follow-up requests issued via `manager()->get`, `finished` signals
emitted). An empty script means the pending reply never finishes. -/
def followerStats : Nat → List Bool → Nat × Nat
  | _, [] => (0, 0)
  | remaining, isRedirect :: rest =>
    if isRedirect then
      if remaining = 0 then (0, 1)
      else
        let p := followerStats (remaining - 1) rest
        (p.1 + 1, p.2)
    else (0, 1)

/-- Total physical requests for a logical request: the first reply handed to
the `RedirectFollower` constructor plus every follow-up it issues. -/
def followerRequests (maxRedirects : Nat) (script : List Bool) : Nat :=
  1 + (followerStats maxRedirects script).1

/-- `finished` signals emitted by the follower over a script. -/
def followerFinished (maxRedirects : Nat) (script : List Bool) : Nat :=
  (followerStats maxRedirects script).2

/-- A reply produced by a POST with a body, carrying a redirect target. -/
def postReplyExample : ReplyInfo :=
  { url := "http://a/x",
    redirectTarget := some "http://b/y",
    request := { url := "http://a/x", headers := [("Cookie", "c")] },
    verb := Verb.post,
    body := some [1, 2],
    managerId := 3 }

/-! ## Helper lemmas -/

theorem run_append (s : TimeoutsState) (l1 l2 : List TEvent) :
    run s (l1 ++ l2) = run (run s l1) l2 := by
  induction l1 generalizing s with
  | nil => rfl
  | cons e es ih => simp [run, ih]

theorem timerEvent_no_entry (s : TimeoutsState) (t : Nat)
    (h : ∀ p ∈ s.timers, p.2 ≠ t) : timerEvent s t = s := by
  unfold timerEvent
  cases hf : s.timers.find? (fun p => p.2 == t) with
  | none => rfl
  | some p =>
    have hmem := List.mem_of_find?_eq_some hf
    have hpred := @List.find?_some (Nat × Nat) (fun q => q.2 == t) p s.timers hf
    exact absurd (by simpa using hpred) (h p hmem)

theorem run_fires_no_entry (s : TimeoutsState) (t : Nat) (n : Nat)
    (h : ∀ p ∈ s.timers, p.2 ≠ t) :
    run s (List.replicate n (TEvent.fire t)) = s := by
  induction n with
  | zero => rfl
  | succ m ih =>
    have hs : step s (TEvent.fire t) = s := timerEvent_no_entry s t h
    simp [List.replicate_succ, run, hs, ih]

theorem find?_timer_unique (s : TimeoutsState) (r t : Nat)
    (hmem : (r, t) ∈ s.timers)
    (huniq : ∀ p ∈ s.timers, p.2 = t → p = (r, t)) :
    s.timers.find? (fun p => p.2 == t) = some (r, t) := by
  cases hf : s.timers.find? (fun p => p.2 == t) with
  | none =>
    rw [List.find?_eq_none] at hf
    exact absurd (by simp : ((r, t).2 == t) = true) (hf (r, t) hmem)
  | some p =>
    have hpmem := List.mem_of_find?_eq_some hf
    have hpred := @List.find?_some (Nat × Nat) (fun q => q.2 == t) p s.timers hf
    rw [huniq p hpmem (by simpa using hpred)]

/-! ## Claim theorems -/

/-- C1: the code's actual cache-load behaviour at the claim's failing inputs.
The claim (and the comment at network.cpp:100) says a request whose
cache-load-control attribute is unset is rewritten to prefer-cache and an
explicit prefer-network request is kept. Because an unset
`CacheLoadControlAttribute` reads as the invalid variant (`toInt() = 0 =
AlwaysNetwork`) while `PreferNetwork = 1`, the code does the opposite: it
leaves the unset default untouched and rewrites an explicit prefer-network
request to prefer-cache. -/
theorem C1_cacheLoadControl_divergence :
    (createRequest "Clementine" "1.0" Operation.getOp
      { url := "http://example.com", userAgent := none, contentType := none,
        cacheLoadControl := none, otherHeaders := [],
        otherAttributes := [] }).cacheLoadControl = none
    ∧ (createRequest "Clementine" "1.0" Operation.getOp
      { url := "http://example.com", userAgent := none, contentType := none,
        cacheLoadControl := some PreferNetwork, otherHeaders := [],
        otherAttributes := [] }).cacheLoadControl = some PreferCache :=
  ⟨rfl, rfl⟩

/-- C7: a POST request with no content-type set receives
`application/x-www-form-urlencoded`; a request that already carries an
explicit content-type keeps it, whatever the operation. -/
theorem C7_contentType_default (appName appVersion : String) (op : Operation)
    (r : Request) :
    ((op = Operation.postOp ∧ r.contentType = none) →
      (createRequest appName appVersion op r).contentType
        = some "application/x-www-form-urlencoded")
    ∧ ∀ ct : String, r.contentType = some ct →
      (createRequest appName appVersion op r).contentType = some ct := by
  constructor
  · rintro ⟨hop, hct⟩
    simp only [createRequest, hop, hct]
    split <;> simp
  · intro ct hct
    simp only [createRequest, hct]
    split <;> split <;> simp_all

/-- C7 witness: both parts instantiated on concrete requests. -/
theorem C7_contentType_default_witness :
    (createRequest "Clementine" "1.0" Operation.postOp
      { url := "u", userAgent := none, contentType := none,
        cacheLoadControl := none, otherHeaders := [],
        otherAttributes := [] }).contentType
      = some "application/x-www-form-urlencoded"
    ∧ (createRequest "Clementine" "1.0" Operation.postOp
      { url := "u", userAgent := none, contentType := some "text/xml",
        cacheLoadControl := none, otherHeaders := [],
        otherAttributes := [] }).contentType = some "text/xml" :=
  ⟨(C7_contentType_default "Clementine" "1.0" Operation.postOp _).1 ⟨rfl, rfl⟩,
   (C7_contentType_default "Clementine" "1.0" Operation.postOp _).2 "text/xml" rfl⟩

/-- C9: the dispatch passes the caller's operation and outgoing data through
unchanged, and the rewritten request differs from the caller's request in at
most the User-Agent raw header, the Content-Type header and the
cache-load-control attribute: URL and every other header and attribute are
returned exactly as supplied. -/
theorem C9_frame (appName appVersion : String) (op : Operation) (r : Request)
    (outgoingData : Option (List Nat)) :
    (createRequestDispatch appName appVersion op r outgoingData).1 = op
    ∧ (createRequestDispatch appName appVersion op r outgoingData).2.2
        = outgoingData
    ∧ (createRequest appName appVersion op r).url = r.url
    ∧ (createRequest appName appVersion op r).otherHeaders = r.otherHeaders
    ∧ (createRequest appName appVersion op r).otherAttributes
        = r.otherAttributes := by
  refine ⟨rfl, rfl, ?_, ?_, ?_⟩ <;>
    · simp only [createRequest]
      split <;> split <;> rfl

/-- C10: the User-Agent header of the rewritten request is always
`"<application-name> <application-version>"`, regardless of what the caller
supplied. -/
theorem C10_userAgent_unconditional (appName appVersion : String)
    (op : Operation) (r : Request) :
    (createRequest appName appVersion op r).userAgent
      = some (appName ++ " " ++ appVersion) := by
  simp only [createRequest]
  split <;> split <;> rfl

theorem followerStats_cons_true_succ (n : Nat) (l : List Bool) :
    followerStats (n + 1) (true :: l)
      = ((followerStats n l).1 + 1, (followerStats n l).2) := by
  simp [followerStats]

theorem followerStats_replicate (N : Nat) (tail : List Bool) :
    followerStats N (List.replicate (N + 1) true ++ false :: tail) = (N, 1) := by
  induction N with
  | zero => simp [followerStats]
  | succ n ih =>
    rw [List.replicate_succ, List.cons_append, followerStats_cons_true_succ, ih]

/-- C2: with budget `N` and a script of `N + 1` redirect responses followed
by a non-redirect response, the follower sends exactly `N + 1` physical
requests (the original plus `N` follow-ups) and emits exactly one `finished`
signal; with budget `0`, exactly one request is sent and one `finished`
emitted whatever the first response is. -/
theorem C2_redirect_budget (N : Nat) (tail : List Bool) (b : Bool)
    (rest : List Bool) :
    followerRequests N (List.replicate (N + 1) true ++ false :: tail) = N + 1
    ∧ followerFinished N (List.replicate (N + 1) true ++ false :: tail) = 1
    ∧ followerRequests 0 (b :: rest) = 1
    ∧ followerFinished 0 (b :: rest) = 1 := by
  refine ⟨?_, ?_, ?_, ?_⟩
  · simp [followerRequests, followerStats_replicate, Nat.add_comm]
  · simp [followerFinished, followerStats_replicate]
  · cases b <;> simp [followerRequests, followerStats]
  · cases b <;> simp [followerFinished, followerStats]

/-- C3 counterexample: a redirect hop away from a reply issued as a POST
with a body. The follow-up is issued as a GET with no outgoing data, so the
HTTP method and body of the original request are not preserved, refuting
the claim as stated. -/
theorem C3_counterexample :
    redirectHop (fun _ t => t) postReplyExample
      = some (3, Verb.get, none,
              { url := "http://b/y", headers := [("Cookie", "c")] })
    ∧ postReplyExample.verb ≠ Verb.get
    ∧ postReplyExample.body ≠ none := by
  refine ⟨rfl, ?_, ?_⟩ <;> simp [postReplyExample]

/-- C3 (amended): on every redirect hop, the new request is a copy of the
current reply's request with only the URL replaced (headers preserved), the
new URL is the redirect target resolved against the current reply's own URL,
and the hop goes through the same manager that produced the current reply —
but it is always issued as an HTTP GET with no request body, regardless of
the method and body of the original request. -/
theorem C3_redirect_hop (resolve : String → String → String)
    (current : ReplyInfo) (target : String)
    (h : current.redirectTarget = some target) :
    redirectHop resolve current
      = some (current.managerId, Verb.get, none,
              { url := resolve current.url target,
                headers := current.request.headers }) := by
  simp [redirectHop, h]

/-- C3 witness: the amended hop theorem applied to `postReplyExample`. -/
theorem C3_redirect_hop_witness :
    redirectHop (fun _ t => t) postReplyExample
      = some (postReplyExample.managerId, Verb.get, none,
              { url := (fun _ t => t) postReplyExample.url "http://b/y",
                headers := postReplyExample.request.headers }) :=
  C3_redirect_hop (fun _ t => t) postReplyExample "http://b/y" rfl

theorem filter_removes_timer (s : TimeoutsState) (r t : Nat)
    (huniq : ∀ p ∈ s.timers, p.2 = t → p = (r, t)) :
    ∀ p ∈ s.timers.filter (fun p => p.1 != r), p.2 ≠ t := by
  intro p hp hpt
  have hmem' : p ∈ s.timers := (List.mem_filter.mp hp).1
  have hne : (p.1 != r) = true := (List.mem_filter.mp hp).2
  rw [huniq p hmem' hpt] at hne
  simp at hne

theorem ReplyFinished_no_entry (s : TimeoutsState) (r : Nat)
    (h : (s.timers.any fun p => p.1 == r) = false) : ReplyFinished s r = s := by
  simp [ReplyFinished, h]

/-- C4: from any supervisor state in which reply `r` is tracked under timer
`t` (and no other entry uses `t`), the trace in which `t` expires, the abort
then triggers the reply's single finished notification, and the (repeating,
not yet killed) timer id fires any number of further times, ends with
exactly one new `abort` of `r` in the log — issued before the finished
notification — and the tracking entry removed. -/
theorem C4_abort_exactly_once (s : TimeoutsState) (r t : Nat) (n : Nat)
    (hmem : (r, t) ∈ s.timers)
    (huniq : ∀ p ∈ s.timers, p.2 = t → p = (r, t)) :
    run s (TEvent.fire t :: TEvent.finish r :: List.replicate n (TEvent.fire t))
      = { timers := s.timers.filter (fun p => p.1 != r),
          nextTimer := s.nextTimer,
          aborts := s.aborts ++ [r] } := by
  have h1 : step s (TEvent.fire t) = { s with aborts := s.aborts ++ [r] } := by
    simp [step, timerEvent, find?_timer_unique s r t hmem huniq]
  have hany : s.timers.any (fun p => p.1 == r) = true :=
    List.any_eq_true.mpr ⟨(r, t), hmem, by simp⟩
  have h2 : step { s with aborts := s.aborts ++ [r] } (TEvent.finish r)
      = { timers := s.timers.filter (fun p => p.1 != r),
          nextTimer := s.nextTimer, aborts := s.aborts ++ [r] } := by
    simp [step, ReplyFinished, hany]
  show run (step (step s (TEvent.fire t)) (TEvent.finish r))
      (List.replicate n (TEvent.fire t)) = _
  rw [h1, h2]
  exact run_fires_no_entry _ t n (filter_removes_timer s r t huniq)

/-- C4 witness: a single tracked reply times out; three stale expirations of
its (already aborted) timer id follow the finished notification. -/
theorem C4_abort_exactly_once_witness :
    run (AddReply initTimeouts 7)
      (TEvent.fire 0 :: TEvent.finish 7 :: List.replicate 3 (TEvent.fire 0))
      = { timers := (AddReply initTimeouts 7).timers.filter (fun p => p.1 != 7),
          nextTimer := (AddReply initTimeouts 7).nextTimer,
          aborts := (AddReply initTimeouts 7).aborts ++ [7] } :=
  C4_abort_exactly_once (AddReply initTimeouts 7) 7 0 3 (by decide) (by decide)

/-- C5: when a tracked reply finishes before its deadline, its entry is
removed at that moment and its timer killed: the removal issues no abort,
any number of subsequent expirations of its timer id change nothing (so no
abort is ever issued for it), and removing it again is a no-op. -/
theorem C5_finish_before_deadline (s : TimeoutsState) (r t : Nat) (n : Nat)
    (hmem : (r, t) ∈ s.timers)
    (huniq : ∀ p ∈ s.timers, p.2 = t → p = (r, t)) :
    (∀ p ∈ (ReplyFinished s r).timers, p.1 ≠ r)
    ∧ (ReplyFinished s r).aborts = s.aborts
    ∧ run (ReplyFinished s r) (List.replicate n (TEvent.fire t))
        = ReplyFinished s r
    ∧ ReplyFinished (ReplyFinished s r) r = ReplyFinished s r := by
  have hany : s.timers.any (fun p => p.1 == r) = true :=
    List.any_eq_true.mpr ⟨(r, t), hmem, by simp⟩
  have hRF : ReplyFinished s r
      = { s with timers := s.timers.filter (fun p => p.1 != r) } := by
    simp [ReplyFinished, hany]
  have hkey0 : ∀ p ∈ s.timers.filter (fun p => p.1 != r), p.1 ≠ r := by
    intro p hp
    have hne : (p.1 != r) = true := (List.mem_filter.mp hp).2
    simpa using hne
  have hkey : ∀ p ∈ (ReplyFinished s r).timers, p.1 ≠ r := by
    rw [hRF]
    exact hkey0
  refine ⟨hkey, by rw [hRF], ?_, ?_⟩
  · rw [hRF]
    exact run_fires_no_entry _ t n (filter_removes_timer s r t huniq)
  · have hnone : ((ReplyFinished s r).timers.any fun p => p.1 == r) = false := by
      rw [List.any_eq_false]
      intro p hp
      simpa using hkey p hp
    exact ReplyFinished_no_entry _ r hnone

/-- C5 witness: a single tracked reply finishes early; two stale
expirations of its timer id follow. -/
theorem C5_finish_before_deadline_witness :
    (∀ p ∈ (ReplyFinished (AddReply initTimeouts 7) 7).timers, p.1 ≠ 7)
    ∧ (ReplyFinished (AddReply initTimeouts 7) 7).aborts
        = (AddReply initTimeouts 7).aborts
    ∧ run (ReplyFinished (AddReply initTimeouts 7) 7)
        (List.replicate 2 (TEvent.fire 0))
        = ReplyFinished (AddReply initTimeouts 7) 7
    ∧ ReplyFinished (ReplyFinished (AddReply initTimeouts 7) 7) 7
        = ReplyFinished (AddReply initTimeouts 7) 7 :=
  C5_finish_before_deadline (AddReply initTimeouts 7) 7 0 2 (by decide) (by decide)

/-- C6: registration is idempotent — registering twice equals registering
once (no second timer is started), and registering a reply that is already
watched leaves the state exactly unchanged. -/
theorem C6_AddReply_idempotent (s : TimeoutsState) (r : Nat) :
    AddReply (AddReply s r) r = AddReply s r
    ∧ ((s.timers.any fun p => p.1 == r) = true → AddReply s r = s) := by
  constructor
  · by_cases h : (s.timers.any fun p => p.1 == r) = true
    · simp [AddReply, h]
    · have h1 : AddReply s r
          = { timers := s.timers ++ [(r, s.nextTimer)],
              nextTimer := s.nextTimer + 1,
              aborts := s.aborts } := by
        simp [AddReply, h]
      have h2 : ((s.timers ++ [(r, s.nextTimer)]).any fun p => p.1 == r)
          = true := by simp
      rw [h1]
      simp [AddReply, h2]
  · intro h
    simp [AddReply, h]

/-- C6 witness: re-registering the already-watched reply 4 is a no-op. -/
theorem C6_AddReply_idempotent_witness :
    AddReply (AddReply initTimeouts 4) 4 = AddReply initTimeouts 4 :=
  (C6_AddReply_idempotent (AddReply initTimeouts 4) 4).2 (by decide)

end Network
